/-
Verification of the sc2-rs protocol transport / typed decoding / command
batching layer against its design specification.

The Rust source is shallowly embedded in Lean:
  * machine floats (`f32`) that the code only copies verbatim are modelled
    as exact rationals (`Rat`); no floating-point arithmetic occurs on any
    verified code path except componentwise `+`/`-` on points, which is
    modelled by exact arithmetic because the verified properties are
    arithmetic-independent (both sides of every equation compute the same
    expression);
  * `FxHashMap` is modelled as a key-value association list with
    replace-on-insert semantics (`insertKV` / `lookupKV`);
  * `FxHashSet<u64>` is modelled as a duplicate-free list in insertion
    order (`setInsert`); the source's hash-iteration order is unspecified
    and no verified property depends on it;
  * fallible decoding (`Option` / panics) is modelled with `Option` and
    `Except`.
-/
import Mathlib

set_option autoImplicit false

/-- `f32` fields of the wire schema; only copied, never computed with,
except exact componentwise point arithmetic. -/
abbrev F32 := Rat

/-- RGB triple, `type Color = (u32, u32, u32)` in `debug.rs`. -/
abbrev Color := Nat × Nat × Nat

/-- `type ScreenPos = (f32, f32)` in `debug.rs`. -/
abbrev ScreenPos := F32 × F32

/-- Modelled from the spec: the geometry module (`Point2`) is not part of
the shown source; a 2D world position. -/
structure Point2 where
  x : F32
  y : F32
deriving DecidableEq, Repr

/-- Modelled from the spec: the geometry module (`Point3`) is not part of
the shown source; a 3D world position with componentwise arithmetic
("box/cube commands take two opposite corners or a center + half-edge"). -/
structure Point3 where
  x : F32
  y : F32
  z : F32
deriving DecidableEq, Repr

/-- Componentwise addition on points (`pos + offset` in `draw_cube`). -/
instance : Add Point3 := ⟨fun a b => ⟨a.x + b.x, a.y + b.y, a.z + b.z⟩⟩

/-- Componentwise subtraction on points (`pos - offset` in `draw_cube`). -/
instance : Sub Point3 := ⟨fun a b => ⟨a.x - b.x, a.y - b.y, a.z - b.z⟩⟩

/-- Modelled from the spec: the ids module is not part of the shown source;
each identifier space is a closed enumeration of engine integer codes, so a
unit-type identifier is represented by its code. -/
abbrev UnitTypeId := Nat

/-- `UnitValue` variants used in `set_unit_values` commands (`debug.rs`). -/
inductive UnitValue where
  | Energy
  | Health
  | Shield
deriving DecidableEq, Repr

/-- `DebugGameState` cheat variants (`debug.rs`). -/
inductive DebugGameState where
  | ShowMap
  | ControlEnemy
  | Food
  | Free
  | AllResources
  | God
  | Minerals
  | Gas
  | Cooldown
  | TechTree
  | Upgrade
  | FastBuild
deriving DecidableEq, Repr

/-- `DebugPos`: screen coordinates (0..1, 0..1) or a world position. -/
inductive DebugPos where
  | Screen (pos : ScreenPos)
  | World (pos : Point3)
deriving DecidableEq, Repr

/-- `DebugDraw` drawing primitives accumulated by the batcher. -/
inductive DebugDraw where
  | Text (text : String) (pos : DebugPos) (color : Option Color) (size : Option Nat)
  | Line (p0 : Point3) (p1 : Point3) (color : Option Color)
  | Box (p0 : Point3) (p1 : Point3) (color : Option Color)
  | Sphere (pos : Point3) (radius : F32) (color : Option Color)
deriving DecidableEq, Repr

/-- `DebugCommand` variants (`debug.rs`). -/
inductive DebugCommand where
  | Draw (cmds : List DebugDraw)
  | GameState (cmd : DebugGameState)
  | CreateUnit (type_id : UnitTypeId) (owner : Option Nat) (pos : Point2) (count : Nat)
  | KillUnit (tags : List Nat)
  | EndGame (win : Bool)
  | SetUnitValue (tag : Nat) (unit_value : UnitValue) (value : Nat)
deriving DecidableEq, Repr

/-- The command batcher state (`struct Debugger` in `debug.rs`):
independently appended commands, queued drawings, and the kill-tag set
(modelled as a duplicate-free list in insertion order). -/
structure Debugger where
  debug_commands : List DebugCommand
  debug_drawings : List DebugDraw
  kill_tags : List Nat
deriving DecidableEq, Repr

/-- `#[derive(Default)]`: the empty (Idle) batcher. -/
def Debugger.empty : Debugger := ⟨[], [], []⟩

/-- Insertion into the kill-tag set: `HashSet::insert`, ignoring
duplicates. -/
def setInsert (s : List Nat) (t : Nat) : List Nat :=
  if t ∈ s then s else s ++ [t]

/-- `HashSet::extend`: insert each element in turn. -/
def setInsertAll (s : List Nat) (l : List Nat) : List Nat :=
  l.foldl setInsert s

/-- `Debugger::get_commands`: drains queued drawings into one `Draw`
command and the kill-tag set into one `KillUnit` command, appends both to
`debug_commands`, and returns the (new state, returned slice) pair. -/
def Debugger.get_commands (s : Debugger) : Debugger × List DebugCommand :=
  let commands := s.debug_commands
    ++ (if s.debug_drawings.isEmpty then [] else [DebugCommand.Draw s.debug_drawings])
    ++ (if s.kill_tags.isEmpty then [] else [DebugCommand.KillUnit s.kill_tags])
  ({ debug_commands := commands, debug_drawings := [], kill_tags := [] }, commands)

/-- `Debugger::clear_commands`: clears only `debug_commands`. -/
def Debugger.clear_commands (s : Debugger) : Debugger :=
  { s with debug_commands := [] }

/-- Private `Debugger::draw_text`. -/
def Debugger.draw_text (s : Debugger) (text : String) (pos : DebugPos)
    (color : Option Color) (size : Option Nat) : Debugger :=
  { s with debug_drawings := s.debug_drawings ++ [DebugDraw.Text text pos color size] }

/-- `Debugger::draw_text_world`. -/
def Debugger.draw_text_world (s : Debugger) (text : String) (pos : Point3)
    (color : Option Color) (size : Option Nat) : Debugger :=
  s.draw_text text (DebugPos.World pos) color size

/-- `Debugger::draw_text_screen`: a missing position defaults to the upper
left corner (0, 0). -/
def Debugger.draw_text_screen (s : Debugger) (text : String) (pos : Option ScreenPos)
    (color : Option Color) (size : Option Nat) : Debugger :=
  s.draw_text text (DebugPos.Screen (pos.getD (0, 0))) color size

/-- `Debugger::draw_line`. -/
def Debugger.draw_line (s : Debugger) (p0 p1 : Point3) (color : Option Color) : Debugger :=
  { s with debug_drawings := s.debug_drawings ++ [DebugDraw.Line p0 p1 color] }

/-- `Debugger::draw_box`. -/
def Debugger.draw_box (s : Debugger) (p0 p1 : Point3) (color : Option Color) : Debugger :=
  { s with debug_drawings := s.debug_drawings ++ [DebugDraw.Box p0 p1 color] }

/-- `Debugger::draw_cube`: pushes a `Box` with corners `pos - offset` and
`pos + offset` where `offset = (half_edge, half_edge, half_edge)`. -/
def Debugger.draw_cube (s : Debugger) (pos : Point3) (half_edge : F32)
    (color : Option Color) : Debugger :=
  let offset : Point3 := ⟨half_edge, half_edge, half_edge⟩
  { s with debug_drawings := s.debug_drawings ++ [DebugDraw.Box (pos - offset) (pos + offset) color] }

/-- `Debugger::draw_sphere`. -/
def Debugger.draw_sphere (s : Debugger) (pos : Point3) (radius : F32)
    (color : Option Color) : Debugger :=
  { s with debug_drawings := s.debug_drawings ++ [DebugDraw.Sphere pos radius color] }

/-- `Debugger::create_units`: appends one `CreateUnit` command per entry,
in order. -/
def Debugger.create_units (s : Debugger)
    (cmds : List (UnitTypeId × Option Nat × Point2 × Nat)) : Debugger :=
  { s with debug_commands := s.debug_commands
      ++ cmds.map (fun c => DebugCommand.CreateUnit c.1 c.2.1 c.2.2.1 c.2.2.2) }

/-- `Debugger::kill_units`: extends the kill-tag set. -/
def Debugger.kill_units (s : Debugger) (tags : List Nat) : Debugger :=
  { s with kill_tags := setInsertAll s.kill_tags tags }

/-- `Debugger::set_unit_values`: appends one `SetUnitValue` command per
entry, in order. -/
def Debugger.set_unit_values (s : Debugger)
    (cmds : List (Nat × UnitValue × Nat)) : Debugger :=
  { s with debug_commands := s.debug_commands
      ++ cmds.map (fun c => DebugCommand.SetUnitValue c.1 c.2.1 c.2.2) }

/-- `Debugger::win_game`. -/
def Debugger.win_game (s : Debugger) : Debugger :=
  { s with debug_commands := s.debug_commands ++ [DebugCommand.EndGame true] }

/-- `Debugger::end_game`. -/
def Debugger.end_game (s : Debugger) : Debugger :=
  { s with debug_commands := s.debug_commands ++ [DebugCommand.EndGame false] }

/-- The game-state cheat methods (`show_map`, `control_enemy`, `cheat_*`)
all append one `GameState` command. -/
def Debugger.push_game_state (s : Debugger) (g : DebugGameState) : Debugger :=
  { s with debug_commands := s.debug_commands ++ [DebugCommand.GameState g] }

/-- Claim C10: for every position, half-edge and optional color,
`draw_cube pos h c` buffers exactly the same drawing as
`draw_box (pos - (h,h,h)) (pos + (h,h,h)) c`: a single `Box` entry whose
two opposite corners are `pos` offset by `h` in each coordinate, leaving
the rest of the batcher state unchanged. -/
theorem claim_C10_draw_cube_eq_draw_box (s : Debugger) (pos : Point3) (h : F32)
    (c : Option Color) :
    s.draw_cube pos h c = s.draw_box (pos - ⟨h, h, h⟩) (pos + ⟨h, h, h⟩) c
    ∧ (s.draw_cube pos h c).debug_commands = s.debug_commands
    ∧ (s.draw_cube pos h c).kill_tags = s.kill_tags
    ∧ (s.draw_cube pos h c).debug_drawings
        = s.debug_drawings ++ [DebugDraw.Box (pos - ⟨h, h, h⟩) (pos + ⟨h, h, h⟩) c] :=
  ⟨rfl, rfl, rfl, rfl⟩

/-- Claim C7: flushing does not empty the pending batch: flushing again
without an intervening clear yields the same command list, and only the
explicit clear step (after a flush) empties the accumulation buffers. -/
theorem claim_C7_flush_preserves_batch (s : Debugger) :
    (Debugger.get_commands (s.get_commands).1).2 = (s.get_commands).2
    ∧ ((s.get_commands).1.clear_commands).debug_commands = []
    ∧ (Debugger.get_commands ((s.get_commands).1.clear_commands)).2 = [] := by
  refine ⟨?_, rfl, rfl⟩
  simp [Debugger.get_commands]

/-- Claim C8: flushing an Idle batcher yields an empty command list, and
clearing is idempotent: clearing twice leaves the same state as clearing
once. -/
theorem claim_C8_empty_flush_and_clear_idempotent :
    (Debugger.empty.get_commands).2 = []
    ∧ ∀ s : Debugger, s.clear_commands.clear_commands = s.clear_commands :=
  ⟨rfl, fun _ => rfl⟩

/-- One public batcher call issued by bot logic during a step. -/
inductive DebugCall where
  | drawTextWorld (text : String) (pos : Point3) (color : Option Color) (size : Option Nat)
  | drawTextScreen (text : String) (pos : Option ScreenPos) (color : Option Color) (size : Option Nat)
  | drawLine (p0 : Point3) (p1 : Point3) (color : Option Color)
  | drawBox (p0 : Point3) (p1 : Point3) (color : Option Color)
  | drawCube (pos : Point3) (half_edge : F32) (color : Option Color)
  | drawSphere (pos : Point3) (radius : F32) (color : Option Color)
  | createUnits (cmds : List (UnitTypeId × Option Nat × Point2 × Nat))
  | killUnits (tags : List Nat)
  | setUnitValues (cmds : List (Nat × UnitValue × Nat))
  | winGame
  | endGame
  | gameStateCheat (g : DebugGameState)
deriving DecidableEq, Repr

/-- Dispatch one call to the corresponding `Debugger` method. -/
def applyCall (s : Debugger) : DebugCall → Debugger
  | DebugCall.drawTextWorld text pos color size => s.draw_text_world text pos color size
  | DebugCall.drawTextScreen text pos color size => s.draw_text_screen text pos color size
  | DebugCall.drawLine p0 p1 color => s.draw_line p0 p1 color
  | DebugCall.drawBox p0 p1 color => s.draw_box p0 p1 color
  | DebugCall.drawCube pos half_edge color => s.draw_cube pos half_edge color
  | DebugCall.drawSphere pos radius color => s.draw_sphere pos radius color
  | DebugCall.createUnits cmds => s.create_units cmds
  | DebugCall.killUnits tags => s.kill_units tags
  | DebugCall.setUnitValues cmds => s.set_unit_values cmds
  | DebugCall.winGame => s.win_game
  | DebugCall.endGame => s.end_game
  | DebugCall.gameStateCheat g => s.push_game_state g

/-- Run a sequence of batcher calls from a given state. -/
def applyCalls (s : Debugger) (cs : List DebugCall) : Debugger :=
  cs.foldl applyCall s

/-- The independently appended commands a single call issues (empty for
draw and kill calls). -/
def callIndependents : DebugCall → List DebugCommand
  | DebugCall.createUnits cmds =>
      cmds.map (fun c => DebugCommand.CreateUnit c.1 c.2.1 c.2.2.1 c.2.2.2)
  | DebugCall.setUnitValues cmds =>
      cmds.map (fun c => DebugCommand.SetUnitValue c.1 c.2.1 c.2.2)
  | DebugCall.winGame => [DebugCommand.EndGame true]
  | DebugCall.endGame => [DebugCommand.EndGame false]
  | DebugCall.gameStateCheat g => [DebugCommand.GameState g]
  | _ => []

/-- All independently appended commands of a call sequence, in issue
order. -/
def independentsOf (cs : List DebugCall) : List DebugCommand :=
  cs.flatMap callIndependents

/-- The drawings a single call queues. -/
def callDraws : DebugCall → List DebugDraw
  | DebugCall.drawTextWorld text pos color size => [DebugDraw.Text text (DebugPos.World pos) color size]
  | DebugCall.drawTextScreen text pos color size =>
      [DebugDraw.Text text (DebugPos.Screen (pos.getD (0, 0))) color size]
  | DebugCall.drawLine p0 p1 color => [DebugDraw.Line p0 p1 color]
  | DebugCall.drawBox p0 p1 color => [DebugDraw.Box p0 p1 color]
  | DebugCall.drawCube pos h color => [DebugDraw.Box (pos - ⟨h, h, h⟩) (pos + ⟨h, h, h⟩) color]
  | DebugCall.drawSphere pos radius color => [DebugDraw.Sphere pos radius color]
  | _ => []

/-- All queued drawings of a call sequence, in issue order. -/
def drawsOf (cs : List DebugCall) : List DebugDraw :=
  cs.flatMap callDraws

/-- The kill tags a single call queues. -/
def callKillTags : DebugCall → List Nat
  | DebugCall.killUnits tags => tags
  | _ => []

/-- All queued kill tags of a call sequence, with multiplicity, in issue
order. -/
def killTagsOf (cs : List DebugCall) : List Nat :=
  cs.flatMap callKillTags

/-- Running one call appends its independent commands, its drawings, and
inserts its kill tags, and does nothing else. -/
theorem applyCall_state (s : Debugger) (c : DebugCall) :
    applyCall s c = ⟨s.debug_commands ++ callIndependents c,
                     s.debug_drawings ++ callDraws c,
                     setInsertAll s.kill_tags (callKillTags c)⟩ := by
  cases c <;>
    simp [applyCall, callIndependents, callDraws, callKillTags, setInsertAll,
      Debugger.draw_text_world, Debugger.draw_text_screen, Debugger.draw_text,
      Debugger.draw_line, Debugger.draw_box, Debugger.draw_cube, Debugger.draw_sphere,
      Debugger.create_units, Debugger.kill_units, Debugger.set_unit_values,
      Debugger.win_game, Debugger.end_game, Debugger.push_game_state]

/-- Running a call sequence accumulates independent commands and drawings
in issue order and folds all kill tags into the set. -/
theorem applyCalls_state (cs : List DebugCall) : ∀ s : Debugger,
    applyCalls s cs = ⟨s.debug_commands ++ independentsOf cs,
                       s.debug_drawings ++ drawsOf cs,
                       setInsertAll s.kill_tags (killTagsOf cs)⟩ := by
  induction cs with
  | nil => intro s; simp [applyCalls, independentsOf, drawsOf, killTagsOf, setInsertAll]
  | cons c rest ih =>
      intro s
      have h1 : applyCalls s (c :: rest) = applyCalls (applyCall s c) rest := rfl
      rw [h1, ih, applyCall_state]
      simp [independentsOf, drawsOf, killTagsOf, setInsertAll, List.foldl_append]

/-- Inserting into the kill-tag set never yields the empty set. -/
theorem setInsert_ne_nil (s : List Nat) (t : Nat) : setInsert s t ≠ [] := by
  unfold setInsert
  split
  · exact List.ne_nil_of_mem ‹t ∈ s›
  · simp

/-- The folded kill-tag set is empty exactly when both the initial set and
the inserted tags are. -/
theorem setInsertAll_eq_nil_iff (l : List Nat) : ∀ s : List Nat,
    setInsertAll s l = [] ↔ s = [] ∧ l = [] := by
  induction l with
  | nil => intro s; simp [setInsertAll]
  | cons t rest ih =>
      intro s
      have h1 : setInsertAll s (t :: rest) = setInsertAll (setInsert s t) rest := rfl
      rw [h1, ih]
      simp [setInsert_ne_nil s t]

/-- Membership after one insertion. -/
theorem mem_setInsert (s : List Nat) (t a : Nat) :
    a ∈ setInsert s t ↔ a ∈ s ∨ a = t := by
  unfold setInsert
  split
  · constructor
    · exact Or.inl
    · rintro (h | rfl)
      · exact h
      · assumption
  · simp

/-- Membership after folding a whole tag list in. -/
theorem mem_setInsertAll (l : List Nat) : ∀ s : List Nat, ∀ a : Nat,
    a ∈ setInsertAll s l ↔ a ∈ s ∨ a ∈ l := by
  induction l with
  | nil => intro s a; simp [setInsertAll]
  | cons t rest ih =>
      intro s a
      have h1 : setInsertAll s (t :: rest) = setInsertAll (setInsert s t) rest := rfl
      rw [h1, ih, mem_setInsert]
      simp
      tauto

/-- Insertion preserves duplicate-freedom. -/
theorem nodup_setInsert (s : List Nat) (t : Nat) (h : s.Nodup) :
    (setInsert s t).Nodup := by
  unfold setInsert
  split
  · exact h
  · simp [List.nodup_append, h]
    intro h1
    exact ‹t ∉ s› h1

/-- Folding a tag list into a duplicate-free set stays duplicate-free. -/
theorem nodup_setInsertAll (l : List Nat) : ∀ s : List Nat, s.Nodup →
    (setInsertAll s l).Nodup := by
  induction l with
  | nil => intro s h; simpa [setInsertAll] using h
  | cons t rest ih =>
      intro s h
      exact ih (setInsert s t) (nodup_setInsert s t h)

/-- The merged draw-batch wire message (`DebugDraw` proto): one list per
drawing kind. Per-element field encoding is modelled at the level of the
drawing payload; the claims concern only per-kind grouping and order. -/
structure ProtoDebugDraw where
  text : List (String × DebugPos × Option Color × Option Nat)
  lines : List (Point3 × Point3 × Option Color)
  boxes : List (Point3 × Point3 × Option Color)
  spheres : List (Point3 × F32 × Option Color)

/-- One iteration of the draw-merge loop: push the drawing onto the list
of its kind. -/
def drawsIntoProtoStep (cmds : ProtoDebugDraw) : DebugDraw → ProtoDebugDraw
  | DebugDraw.Text t p c s => { cmds with text := cmds.text ++ [(t, p, c, s)] }
  | DebugDraw.Line p0 p1 c => { cmds with lines := cmds.lines ++ [(p0, p1, c)] }
  | DebugDraw.Box p0 p1 c => { cmds with boxes := cmds.boxes ++ [(p0, p1, c)] }
  | DebugDraw.Sphere p r c => { cmds with spheres := cmds.spheres ++ [(p, r, c)] }

/-- `IntoProto<ProtoDebugDraw> for &[DebugDraw]`: merge an ordered drawing
list into one draw-batch message. -/
def drawsIntoProto (l : List DebugDraw) : ProtoDebugDraw :=
  l.foldl drawsIntoProtoStep ⟨[], [], [], []⟩

/-- The text drawings of a list, in order. -/
def textEntries (l : List DebugDraw) : List (String × DebugPos × Option Color × Option Nat) :=
  l.filterMap fun d => match d with
    | DebugDraw.Text t p c s => some (t, p, c, s)
    | _ => none

/-- The line drawings of a list, in order. -/
def lineEntries (l : List DebugDraw) : List (Point3 × Point3 × Option Color) :=
  l.filterMap fun d => match d with
    | DebugDraw.Line p0 p1 c => some (p0, p1, c)
    | _ => none

/-- The box drawings of a list, in order. -/
def boxEntries (l : List DebugDraw) : List (Point3 × Point3 × Option Color) :=
  l.filterMap fun d => match d with
    | DebugDraw.Box p0 p1 c => some (p0, p1, c)
    | _ => none

/-- The sphere drawings of a list, in order. -/
def sphereEntries (l : List DebugDraw) : List (Point3 × F32 × Option Color) :=
  l.filterMap fun d => match d with
    | DebugDraw.Sphere p r c => some (p, r, c)
    | _ => none

/-- The draw-merge loop groups drawings by kind, preserving per-kind
order. -/
theorem drawsIntoProto_spec (l : List DebugDraw) : ∀ init : ProtoDebugDraw,
    l.foldl drawsIntoProtoStep init
      = ⟨init.text ++ textEntries l, init.lines ++ lineEntries l,
         init.boxes ++ boxEntries l, init.spheres ++ sphereEntries l⟩ := by
  induction l with
  | nil => intro init; simp [textEntries, lineEntries, boxEntries, sphereEntries]
  | cons d rest ih =>
      intro init
      have h1 : (d :: rest).foldl drawsIntoProtoStep init
          = rest.foldl drawsIntoProtoStep (drawsIntoProtoStep init d) := rfl
      rw [h1, ih]
      cases d <;>
        simp [drawsIntoProtoStep, textEntries, lineEntries, boxEntries, sphereEntries]

/-- Claim C3: for every sequence of batcher calls in one step, the flushed
command list is: all independently-appended commands in issue order, then
one merged draw-batch command if any draw call was queued, then one merged
kill command if any kill tag was queued; and within the draw batch the
per-kind text/line/box lists each preserve the order of the corresponding
draw calls. -/
theorem claim_C3_flush_order (cs : List DebugCall) :
    ∃ ktags : List Nat,
      (applyCalls Debugger.empty cs).get_commands.2
        = independentsOf cs
          ++ (if drawsOf cs = [] then [] else [DebugCommand.Draw (drawsOf cs)])
          ++ (if killTagsOf cs = [] then [] else [DebugCommand.KillUnit ktags])
      ∧ (drawsIntoProto (drawsOf cs)).text = textEntries (drawsOf cs)
      ∧ (drawsIntoProto (drawsOf cs)).lines = lineEntries (drawsOf cs)
      ∧ (drawsIntoProto (drawsOf cs)).boxes = boxEntries (drawsOf cs) := by
  refine ⟨setInsertAll [] (killTagsOf cs), ?_, ?_, ?_, ?_⟩
  · rw [applyCalls_state]
    have hk : (setInsertAll [] (killTagsOf cs) = []) ↔ killTagsOf cs = [] := by
      rw [setInsertAll_eq_nil_iff]
      simp
    simp only [Debugger.get_commands, Debugger.empty, List.nil_append, List.isEmpty_iff, hk]
  · rw [drawsIntoProto, drawsIntoProto_spec]
    simp
  · rw [drawsIntoProto, drawsIntoProto_spec]
    simp
  · rw [drawsIntoProto, drawsIntoProto_spec]
    simp

/-- Distinguishes the merged kill command. -/
def isKillCommand : DebugCommand → Bool
  | DebugCommand.KillUnit _ => true
  | _ => false

/-- The independently appended commands of a single call never include a
kill command. -/
theorem callIndependents_not_kill (call : DebugCall) (c : DebugCommand)
    (hc : c ∈ callIndependents call) : isKillCommand c = false := by
  cases call with
  | createUnits cmds =>
      obtain ⟨a, -, rfl⟩ := List.mem_map.mp hc
      rfl
  | setUnitValues cmds =>
      obtain ⟨a, -, rfl⟩ := List.mem_map.mp hc
      rfl
  | killUnits tags => simp [callIndependents] at hc
  | winGame => simp [callIndependents] at hc; subst hc; rfl
  | endGame => simp [callIndependents] at hc; subst hc; rfl
  | gameStateCheat g => simp [callIndependents] at hc; subst hc; rfl
  | drawTextWorld t p co s => simp [callIndependents] at hc
  | drawTextScreen t p co s => simp [callIndependents] at hc
  | drawLine p0 p1 co => simp [callIndependents] at hc
  | drawBox p0 p1 co => simp [callIndependents] at hc
  | drawCube p h co => simp [callIndependents] at hc
  | drawSphere p r co => simp [callIndependents] at hc

/-- No independently appended command of a call sequence is a kill
command. -/
theorem independentsOf_not_kill (cs : List DebugCall) (c : DebugCommand)
    (hc : c ∈ independentsOf cs) : isKillCommand c = false := by
  rw [independentsOf, List.mem_flatMap] at hc
  obtain ⟨call, -, hmem⟩ := hc
  exact callIndependents_not_kill call c hmem

/-- Claim C5: for every multiset of queued kill requests across any number
of `kill_units` calls (duplicates allowed), flushing yields exactly one
kill command whose payload carries exactly the distinct queued tags:
membership exact, duplicates collapsed, order unspecified. -/
theorem claim_C5_kill_set (cs : List DebugCall) (h : killTagsOf cs ≠ []) :
    ∃ ktags : List Nat,
      ((applyCalls Debugger.empty cs).get_commands.2.filter isKillCommand)
        = [DebugCommand.KillUnit ktags]
      ∧ ktags.Nodup
      ∧ ∀ t : Nat, t ∈ ktags ↔ t ∈ killTagsOf cs := by
  refine ⟨setInsertAll [] (killTagsOf cs), ?_, ?_, ?_⟩
  · rw [applyCalls_state]
    have hk : ¬(setInsertAll [] (killTagsOf cs) = []) := by
      rw [setInsertAll_eq_nil_iff]
      simp [h]
    have hind : (independentsOf cs).filter isKillCommand = [] := by
      rw [List.filter_eq_nil_iff]
      intro a ha
      simp [independentsOf_not_kill cs a ha]
    simp only [Debugger.get_commands, Debugger.empty, List.nil_append, List.isEmpty_iff,
      List.filter_append, hind, hk, if_neg hk]
    split
    · simp [isKillCommand]
    · simp [isKillCommand]
  · exact nodup_setInsertAll (killTagsOf cs) [] List.nodup_nil
  · intro t
    rw [mem_setInsertAll]
    simp

/-- Witness for C5: queuing kill requests for tags 5, 7, 5, 9 and flushing
yields one kill command with tag set {5, 7, 9}. -/
theorem claim_C5_kill_set_witness :
    killTagsOf [DebugCall.killUnits [5, 7, 5, 9]] ≠ []
    ∧ ∃ ktags : List Nat,
      ((applyCalls Debugger.empty [DebugCall.killUnits [5, 7, 5, 9]]).get_commands.2.filter
          isKillCommand)
        = [DebugCommand.KillUnit ktags]
      ∧ ktags.Nodup
      ∧ ∀ t : Nat, t ∈ ktags ↔ t ∈ killTagsOf [DebugCall.killUnits [5, 7, 5, 9]] :=
  ⟨by decide, claim_C5_kill_set [DebugCall.killUnits [5, 7, 5, 9]] (by decide)⟩

/-- Key-value association list modelling `FxHashMap`: `insert` replaces an
existing binding for the key or appends a new one. -/
def insertKV {κ α : Type} [DecidableEq κ] (m : List (κ × α)) (k : κ) (v : α) : List (κ × α) :=
  match m with
  | [] => [(k, v)]
  | e :: rest => if e.1 = k then (k, v) :: rest else e :: insertKV rest k v

/-- Map lookup on the association-list model. -/
def lookupKV {κ α : Type} [DecidableEq κ] (m : List (κ × α)) (k : κ) : Option α :=
  match m with
  | [] => none
  | e :: rest => if e.1 = k then some e.2 else lookupKV rest k

/-- The catalog-building loop of `GameData::from_proto`: decode each wire
record, inserting the successful ones keyed by their identifier and
skipping the rest. -/
def buildCatalogAux {ρ κ α : Type} [DecidableEq κ] (tryFrom : ρ → Option α) (key : α → κ)
    (m : List (κ × α)) : List ρ → List (κ × α)
  | [] => m
  | r :: rest =>
      match tryFrom r with
      | some d => buildCatalogAux tryFrom key (insertKV m (key d) d) rest
      | none => buildCatalogAux tryFrom key m rest

/-- Build a catalog from a wire record list, starting empty. -/
def buildCatalog {ρ κ α : Type} [DecidableEq κ] (tryFrom : ρ → Option α) (key : α → κ)
    (l : List ρ) : List (κ × α) :=
  buildCatalogAux tryFrom key [] l

/-- Looking up the key just inserted returns the inserted value. -/
theorem lookupKV_insertKV_self {κ α : Type} [DecidableEq κ] (m : List (κ × α)) (k : κ) (v : α) :
    lookupKV (insertKV m k v) k = some v := by
  induction m with
  | nil => simp [insertKV, lookupKV]
  | cons e rest ih =>
      by_cases h : e.1 = k
      · simp [insertKV, lookupKV, h]
      · simp [insertKV, lookupKV, h, ih]

/-- Inserting a different key does not change a lookup. -/
theorem lookupKV_insertKV_ne {κ α : Type} [DecidableEq κ] (m : List (κ × α)) (k' k : κ) (v : α)
    (h : k' ≠ k) : lookupKV (insertKV m k' v) k = lookupKV m k := by
  induction m with
  | nil => simp [insertKV, lookupKV, h]
  | cons e rest ih =>
      by_cases he : e.1 = k'
      · have hek : ¬e.1 = k := by rw [he]; exact h
        simp [insertKV, lookupKV, he, h, hek]
      · by_cases hek : e.1 = k
        · simp [insertKV, lookupKV, he, hek, Ne.symm h]
        · simp [insertKV, lookupKV, he, hek, ih]

/-- A record that fails to decode is skipped: building from the list with
the record removed yields the same catalog. -/
theorem buildCatalogAux_skip {ρ κ α : Type} [DecidableEq κ] (tryFrom : ρ → Option α)
    (key : α → κ) (r : ρ) (htry : tryFrom r = none) (l1 : List ρ) : ∀ (m : List (κ × α)) (l2 : List ρ),
    buildCatalogAux tryFrom key m (l1 ++ r :: l2) = buildCatalogAux tryFrom key m (l1 ++ l2) := by
  induction l1 with
  | nil =>
      intro m l2
      simp [buildCatalogAux, htry]
  | cons r0 rest ih =>
      intro m l2
      simp only [List.cons_append, buildCatalogAux]
      cases tryFrom r0 <;> simp [ih]

/-- Records whose key never occurs among the decoded keys do not affect a
lookup. -/
theorem buildCatalogAux_lookup_of_not_mem {ρ κ α : Type} [DecidableEq κ]
    (tryFrom : ρ → Option α) (key : α → κ) (k : κ) (l : List ρ)
    (hk : k ∉ (l.filterMap tryFrom).map key) : ∀ m : List (κ × α),
    lookupKV (buildCatalogAux tryFrom key m l) k = lookupKV m k := by
  induction l with
  | nil => intro m; rfl
  | cons r0 rest ih =>
      intro m
      rw [List.filterMap_cons] at hk
      cases htry : tryFrom r0 with
      | none =>
          rw [htry] at hk
          simp only [buildCatalogAux, htry]
          exact ih hk m
      | some d =>
          rw [htry] at hk
          simp only [List.map_cons, List.mem_cons, not_or] at hk
          simp only [buildCatalogAux, htry]
          rw [ih hk.2, lookupKV_insertKV_ne]
          intro he
          exact hk.1 he.symm

/-- When the decoded keys of a record list are pairwise distinct, every
record that decodes successfully is present in the built catalog
unchanged. -/
theorem buildCatalogAux_lookup_mem {ρ κ α : Type} [DecidableEq κ]
    (tryFrom : ρ → Option α) (key : α → κ) (a : α) (l : List ρ)
    (hnd : ((l.filterMap tryFrom).map key).Nodup)
    (ha : ∃ r ∈ l, tryFrom r = some a) : ∀ m : List (κ × α),
    lookupKV (buildCatalogAux tryFrom key m l) (key a) = some a := by
  induction l with
  | nil => simp at ha
  | cons r0 rest ih =>
      intro m
      obtain ⟨r, hr, hra⟩ := ha
      cases htry : tryFrom r0 with
      | none =>
          simp only [buildCatalogAux, htry]
          rw [List.filterMap_cons, htry] at hnd
          have hrrest : r ∈ rest := by
            rcases List.mem_cons.mp hr with rfl | h
            · rw [htry] at hra; exact absurd hra (by simp)
            · exact h
          exact ih hnd ⟨r, hrrest, hra⟩ m
      | some d =>
          simp only [buildCatalogAux, htry]
          rw [List.filterMap_cons, htry] at hnd
          simp only [List.map_cons, List.nodup_cons] at hnd
          by_cases hda : d = a
          · subst hda
            rw [buildCatalogAux_lookup_of_not_mem tryFrom key (key d) rest hnd.1]
            exact lookupKV_insertKV_self m (key d) d
          · have hrrest : r ∈ rest := by
              rcases List.mem_cons.mp hr with rfl | h
              · rw [htry] at hra
                exact absurd (Option.some.inj hra) hda
              · exact h
            exact ih hnd.2 ⟨r, hrrest, hra⟩ (insertKV m (key d) d)

/-- Modelled from the spec: the ids module is not part of the shown
source; an ability identifier is represented by its engine integer code. -/
abbrev AbilityId := Nat

/-- Modelled from the spec: an upgrade identifier code. -/
abbrev UpgradeId := Nat

/-- Modelled from the spec: a buff identifier code. -/
abbrev BuffId := Nat

/-- Modelled from the spec: `from_u32` of a closed identifier enumeration,
parametrized by which engine codes the enumeration knows; resolves exactly
the known codes ("the enumeration is a subset of the engine's live integer
space"). -/
def idFromU32 (known : Nat → Bool) (code : Nat) : Option Nat :=
  if known code then some code else none

/-- Modelled from the spec: the `EffectId` enumeration of the ids module
is not part of the shown source. The five variants named in
`EffectData::try_from_proto` are taken from the source; the remaining
variants and the integer codes are representative members of the closed
enumeration. -/
inductive EffectId where
  | Null
  | PsiStormPersistent
  | GuardianShieldPersistent
  | TemporalFieldGrowingBubbleCreatePersistent
  | TemporalFieldAfterBubbleCreatePersistent
  | ThermalLancesForward
  | ScannerSweep
  | NukePersistent
  | LiberatorTargetMorphDelayPersistent
  | LiberatorTargetMorphPersistent
  | BlindingCloudCP
  | RavagerCorrosiveBileCP
  | LurkerMP
deriving DecidableEq, Repr

/-- Modelled from the spec: `EffectId::from_u32`, resolving exactly the
codes of the closed enumeration. -/
def EffectId.from_u32 : Nat → Option EffectId
  | 0 => some EffectId.Null
  | 1 => some EffectId.PsiStormPersistent
  | 2 => some EffectId.GuardianShieldPersistent
  | 3 => some EffectId.TemporalFieldGrowingBubbleCreatePersistent
  | 4 => some EffectId.TemporalFieldAfterBubbleCreatePersistent
  | 5 => some EffectId.ThermalLancesForward
  | 6 => some EffectId.ScannerSweep
  | 7 => some EffectId.NukePersistent
  | 8 => some EffectId.LiberatorTargetMorphDelayPersistent
  | 9 => some EffectId.LiberatorTargetMorphPersistent
  | 10 => some EffectId.BlindingCloudCP
  | 11 => some EffectId.RavagerCorrosiveBileCP
  | 12 => some EffectId.LurkerMP
  | _ => none

/-- Wire race enum (`sc2api::Race`). -/
inductive ProtoRace where
  | NoRace
  | Terran
  | Zerg
  | Protoss
  | Random
deriving DecidableEq, Repr

/-- Modelled from the spec: the player module is not part of the shown
source; the domain race enumeration, with a total conversion "mapping an
engine enum value directly to a domain enum value". -/
inductive Race where
  | NoRace
  | Terran
  | Zerg
  | Protoss
  | Random
deriving DecidableEq, Repr

/-- Modelled from the spec: `Race::from_proto`, a total enum-to-enum
conversion. -/
def Race.from_proto : ProtoRace → Race
  | ProtoRace.NoRace => Race.NoRace
  | ProtoRace.Terran => Race.Terran
  | ProtoRace.Zerg => Race.Zerg
  | ProtoRace.Protoss => Race.Protoss
  | ProtoRace.Random => Race.Random

/-- Wire `ability_data::Target` enum. -/
inductive ProtoAbilityTarget where
  | None
  | Point
  | Unit
  | PointOrUnit
  | PointOrNone
deriving DecidableEq, Repr

/-- `AbilityTarget` (`game_data.rs`). -/
inductive AbilityTarget where
  | None
  | Point
  | Unit
  | PointOrUnit
  | PointOrNone
deriving DecidableEq, Repr

/-- `AbilityTarget::from_proto`: the total variant-for-variant map. -/
def AbilityTarget.from_proto : ProtoAbilityTarget → AbilityTarget
  | ProtoAbilityTarget.None => AbilityTarget.None
  | ProtoAbilityTarget.Point => AbilityTarget.Point
  | ProtoAbilityTarget.Unit => AbilityTarget.Unit
  | ProtoAbilityTarget.PointOrUnit => AbilityTarget.PointOrUnit
  | ProtoAbilityTarget.PointOrNone => AbilityTarget.PointOrNone

/-- Wire `Attribute` enum (`sc2_proto::data`). -/
inductive ProtoAttribute where
  | Light
  | Armored
  | Biological
  | Mechanical
  | Robotic
  | Psionic
  | Massive
  | Structure
  | Hover
  | Heroic
  | Summoned
deriving DecidableEq, Repr

/-- `Attribute` (`game_data.rs`). -/
inductive Attribute where
  | Light
  | Armored
  | Biological
  | Mechanical
  | Robotic
  | Psionic
  | Massive
  | Structure
  | Hover
  | Heroic
  | Summoned
deriving DecidableEq, Repr

/-- `Attribute::from_proto`: the total variant-for-variant map. -/
def Attribute.from_proto : ProtoAttribute → Attribute
  | ProtoAttribute.Light => Attribute.Light
  | ProtoAttribute.Armored => Attribute.Armored
  | ProtoAttribute.Biological => Attribute.Biological
  | ProtoAttribute.Mechanical => Attribute.Mechanical
  | ProtoAttribute.Robotic => Attribute.Robotic
  | ProtoAttribute.Psionic => Attribute.Psionic
  | ProtoAttribute.Massive => Attribute.Massive
  | ProtoAttribute.Structure => Attribute.Structure
  | ProtoAttribute.Hover => Attribute.Hover
  | ProtoAttribute.Heroic => Attribute.Heroic
  | ProtoAttribute.Summoned => Attribute.Summoned

/-- Wire `weapon::TargetType` enum. -/
inductive ProtoWeaponTargetType where
  | Ground
  | Air
  | Any
deriving DecidableEq, Repr

/-- `TargetType` (`game_data.rs`): possible targets of a weapon or an
effect. -/
inductive TargetType where
  | Ground
  | Air
  | Any
deriving DecidableEq, Repr

/-- `TargetType::from_proto`: the total variant-for-variant map. -/
def TargetType.from_proto : ProtoWeaponTargetType → TargetType
  | ProtoWeaponTargetType.Ground => TargetType.Ground
  | ProtoWeaponTargetType.Air => TargetType.Air
  | ProtoWeaponTargetType.Any => TargetType.Any

/-- Rust `as u32` on an `f32` value: truncation toward zero, saturating at
the bounds of `u32`. -/
def f32_as_u32 (q : F32) : Nat :=
  min (max (Rat.floor q) 0).toNat (2 ^ 32 - 1)

/-- Rust `as i32` on an `f32` value: truncation toward zero, saturating at
the bounds of `i32`. -/
def f32_as_i32 (q : F32) : Int :=
  max (min (Rat.floor q) (2 ^ 31 - 1)) (-(2 ^ 31))

/-- Wire `Weapon` sub-message: only the fields the decoder reads; fields
read through defaulting accessors are stored as the accessor results. -/
structure ProtoWeapon where
  type_ : ProtoWeaponTargetType
  damage : F32
  damage_bonus : List (ProtoAttribute × F32)
  attacks : Nat
  range : F32
  speed : F32
deriving DecidableEq, Repr

/-- `Weapon` (`game_data.rs`). -/
structure Weapon where
  target : TargetType
  damage : Nat
  damage_bonus : List (Attribute × Nat)
  attacks : Nat
  range : F32
  speed : F32
deriving DecidableEq, Repr

/-- `Weapon::from_proto` (total). -/
def Weapon.from_proto (w : ProtoWeapon) : Weapon :=
  { target := TargetType.from_proto w.type_
    damage := f32_as_u32 w.damage
    damage_bonus := w.damage_bonus.map (fun db => (Attribute.from_proto db.1, f32_as_u32 db.2))
    attacks := w.attacks
    range := w.range
    speed := w.speed }

/-- Wire `AbilityData` sub-message: fields read through defaulting
accessors are stored as the accessor results; optional fields the decoder
inspects are stored as options. -/
structure ProtoAbilityData where
  ability_id : Nat
  link_name : String
  link_index : Nat
  button_name : Option String
  friendly_name : Option String
  hotkey : Option String
  remaps_to_ability_id : Option Nat
  available : Bool
  target : ProtoAbilityTarget
  allow_minimap : Bool
  allow_autocast : Bool
  is_building : Bool
  footprint_radius : Option F32
  is_instant_placement : Bool
  cast_range : Option F32
deriving DecidableEq, Repr

/-- `AbilityData` (`game_data.rs`). -/
structure AbilityData where
  id : AbilityId
  link_name : String
  link_index : Nat
  button_name : Option String
  friendly_name : Option String
  hotkey : Option String
  remaps_to_ability_id : Option AbilityId
  available : Bool
  target : AbilityTarget
  allow_minimap : Bool
  allow_autocast : Bool
  is_building : Bool
  footprint_radius : Option F32
  is_instant_placement : Bool
  cast_range : Option F32
deriving DecidableEq, Repr

/-- `AbilityData::try_from_proto`: fails exactly when the numeric ability
code does not resolve; `remaps_to_ability_id` falls back to `None` when
its code does not resolve. -/
def AbilityData.try_from_proto (knownAbility : Nat → Bool) (a : ProtoAbilityData) :
    Option AbilityData :=
  (idFromU32 knownAbility a.ability_id).map fun id =>
    { id := id
      link_name := a.link_name
      link_index := a.link_index
      button_name := a.button_name
      friendly_name := a.friendly_name
      hotkey := a.hotkey
      remaps_to_ability_id := a.remaps_to_ability_id.bind (idFromU32 knownAbility)
      available := a.available
      target := AbilityTarget.from_proto a.target
      allow_minimap := a.allow_minimap
      allow_autocast := a.allow_autocast
      is_building := a.is_building
      footprint_radius := a.footprint_radius
      is_instant_placement := a.is_instant_placement
      cast_range := a.cast_range }

/-- Wire `UnitTypeData` sub-message. -/
structure ProtoUnitTypeData where
  unit_id : Nat
  name : String
  available : Bool
  cargo_size : Nat
  mineral_cost : Nat
  vespene_cost : Nat
  food_required : F32
  food_provided : F32
  ability_id : Option Nat
  race : ProtoRace
  build_time : F32
  has_vespene : Bool
  has_minerals : Bool
  sight_range : F32
  tech_alias : List Nat
  unit_alias : Option Nat
  tech_requirement : Option Nat
  require_attached : Bool
  attributes : List ProtoAttribute
  movement_speed : F32
  armor : F32
  weapons : List ProtoWeapon
deriving DecidableEq, Repr

/-- `UnitTypeData` (`game_data.rs`). -/
structure UnitTypeData where
  id : UnitTypeId
  name : String
  available : Bool
  cargo_size : Nat
  mineral_cost : Nat
  vespene_cost : Nat
  food_required : F32
  food_provided : F32
  ability : Option AbilityId
  race : Race
  build_time : F32
  has_vespene : Bool
  has_minerals : Bool
  sight_range : F32
  tech_alias : List UnitTypeId
  unit_alias : Option UnitTypeId
  tech_requirement : Option UnitTypeId
  require_attached : Bool
  attributes : List Attribute
  movement_speed : F32
  armor : Int
  weapons : List Weapon
deriving DecidableEq, Repr

/-- `Cost` (`game_data.rs`): resources, supply and time of an item. -/
structure Cost where
  minerals : Nat
  vespene : Nat
  supply : F32
  time : F32
deriving DecidableEq, Repr

/-- `UnitTypeData::cost`: a pure derived view of the stored fields. -/
def UnitTypeData.cost (u : UnitTypeData) : Cost :=
  { minerals := u.mineral_cost
    vespene := u.vespene_cost
    supply := u.food_required
    time := u.build_time }

/-- `UnitTypeData::try_from_proto`: fails exactly when the unit-type code
does not resolve; unresolvable codes in `tech_alias` are filtered out and
unresolvable optional codes fall back to `None`. -/
def UnitTypeData.try_from_proto (knownUnit knownAbility : Nat → Bool)
    (u : ProtoUnitTypeData) : Option UnitTypeData :=
  (idFromU32 knownUnit u.unit_id).map fun id =>
    { id := id
      name := u.name
      available := u.available
      cargo_size := u.cargo_size
      mineral_cost := u.mineral_cost
      vespene_cost := u.vespene_cost
      food_required := u.food_required
      food_provided := u.food_provided
      ability := u.ability_id.bind (idFromU32 knownAbility)
      race := Race.from_proto u.race
      build_time := u.build_time
      has_vespene := u.has_vespene
      has_minerals := u.has_minerals
      sight_range := u.sight_range
      tech_alias := u.tech_alias.filterMap (idFromU32 knownUnit)
      unit_alias := u.unit_alias.bind (idFromU32 knownUnit)
      tech_requirement := u.tech_requirement.bind (idFromU32 knownUnit)
      require_attached := u.require_attached
      attributes := u.attributes.map Attribute.from_proto
      movement_speed := u.movement_speed
      armor := f32_as_i32 u.armor
      weapons := u.weapons.map Weapon.from_proto }

/-- Wire `UpgradeData` sub-message. -/
structure ProtoUpgradeData where
  upgrade_id : Nat
  ability_id : Nat
  name : String
  mineral_cost : Nat
  vespene_cost : Nat
  research_time : F32
deriving DecidableEq, Repr

/-- `UpgradeData` (`game_data.rs`). -/
structure UpgradeData where
  id : UpgradeId
  ability : AbilityId
  name : String
  mineral_cost : Nat
  vespene_cost : Nat
  research_time : F32
deriving DecidableEq, Repr

/-- `UpgradeData::cost`: a pure derived view; supply cost is always zero
by construction. -/
def UpgradeData.cost (u : UpgradeData) : Cost :=
  { minerals := u.mineral_cost
    vespene := u.vespene_cost
    supply := 0
    time := u.research_time }

/-- `UpgradeData::try_from_proto`: fails when the upgrade code or the
research ability code does not resolve. -/
def UpgradeData.try_from_proto (knownUpgrade knownAbility : Nat → Bool)
    (u : ProtoUpgradeData) : Option UpgradeData := do
  let id ← idFromU32 knownUpgrade u.upgrade_id
  let ability ← idFromU32 knownAbility u.ability_id
  pure { id := id
         ability := ability
         name := u.name
         mineral_cost := u.mineral_cost
         vespene_cost := u.vespene_cost
         research_time := u.research_time }

/-- Wire `BuffData` sub-message. -/
structure ProtoBuffData where
  buff_id : Nat
  name : String
deriving DecidableEq, Repr

/-- `BuffData` (`game_data.rs`). -/
structure BuffData where
  id : BuffId
  name : String
deriving DecidableEq, Repr

/-- `BuffData::try_from_proto`: fails exactly when the buff code does not
resolve. -/
def BuffData.try_from_proto (knownBuff : Nat → Bool) (b : ProtoBuffData) :
    Option BuffData :=
  (idFromU32 knownBuff b.buff_id).map fun id => { id := id, name := b.name }

/-- Wire `EffectData` sub-message. -/
structure ProtoEffectData where
  effect_id : Nat
  name : String
  friendly_name : String
  radius : F32
deriving DecidableEq, Repr

/-- `EffectData` (`game_data.rs`): `target` and `friendly_fire` are not
wire fields, they are derived from the identifier. -/
structure EffectData where
  id : EffectId
  name : String
  friendly_name : String
  radius : F32
  target : TargetType
  friendly_fire : Bool
deriving DecidableEq, Repr

/-- `EffectData::try_from_proto`: fails exactly when the effect code does
not resolve; `target` and `friendly_fire` come from the hard-coded match
on the identifier. -/
def EffectData.try_from_proto (e : ProtoEffectData) : Option EffectData :=
  (EffectId.from_u32 e.effect_id).map fun id =>
    { id := id
      name := e.name
      friendly_name := e.friendly_name
      radius := e.radius
      target :=
        match id with
        | EffectId.Null | EffectId.PsiStormPersistent | EffectId.ScannerSweep
        | EffectId.NukePersistent | EffectId.RavagerCorrosiveBileCP => TargetType.Any
        | _ => TargetType.Ground
      friendly_fire :=
        match id with
        | EffectId.PsiStormPersistent | EffectId.NukePersistent
        | EffectId.RavagerCorrosiveBileCP => true
        | _ => false }

/-- Wire `ResponseData` envelope: the five catalog record lists. -/
structure ResponseData where
  abilities : List ProtoAbilityData
  units : List ProtoUnitTypeData
  upgrades : List ProtoUpgradeData
  buffs : List ProtoBuffData
  effects : List ProtoEffectData
deriving DecidableEq, Repr

/-- `GameData` (`game_data.rs`): one catalog per identifier space. -/
structure GameData where
  abilities : List (AbilityId × AbilityData)
  units : List (UnitTypeId × UnitTypeData)
  upgrades : List (UpgradeId × UpgradeData)
  buffs : List (BuffId × BuffData)
  effects : List (EffectId × EffectData)
deriving DecidableEq, Repr

/-- `GameData::from_proto`: decode each record list into its catalog,
keyed by record identifier, silently skipping records whose code does not
resolve; total by construction (it never fails). -/
def GameData.from_proto (kA kU kUp kB : Nat → Bool) (d : ResponseData) : GameData :=
  { abilities := buildCatalog (AbilityData.try_from_proto kA) AbilityData.id d.abilities
    units := buildCatalog (UnitTypeData.try_from_proto kU kA) UnitTypeData.id d.units
    upgrades := buildCatalog (UpgradeData.try_from_proto kUp kA) UpgradeData.id d.upgrades
    buffs := buildCatalog (BuffData.try_from_proto kB) BuffData.id d.buffs
    effects := buildCatalog EffectData.try_from_proto EffectData.id d.effects }

/-- Claim C1 (amended): for every wire response containing a catalog
record whose numeric code does not resolve, decoding succeeds (the decode
is total by construction) and the unrecognized record is omitted with no
cross-record interference: the result equals decoding the response with
that record removed; moreover, whenever the resolvable records of a list
carry pairwise-distinct identifiers, every one of them is present in its
catalog unchanged. -/
theorem claim_C1_unknown_code_skipped (kA kU kUp kB : Nat → Bool) :
    (∀ (d : ResponseData) (r : ProtoAbilityData) (l1 l2 : List ProtoAbilityData),
      d.abilities = l1 ++ r :: l2 → AbilityData.try_from_proto kA r = none →
      GameData.from_proto kA kU kUp kB d
        = GameData.from_proto kA kU kUp kB { d with abilities := l1 ++ l2 })
    ∧ (∀ (d : ResponseData) (r : ProtoUnitTypeData) (l1 l2 : List ProtoUnitTypeData),
      d.units = l1 ++ r :: l2 → UnitTypeData.try_from_proto kU kA r = none →
      GameData.from_proto kA kU kUp kB d
        = GameData.from_proto kA kU kUp kB { d with units := l1 ++ l2 })
    ∧ (∀ (d : ResponseData) (r : ProtoUpgradeData) (l1 l2 : List ProtoUpgradeData),
      d.upgrades = l1 ++ r :: l2 → UpgradeData.try_from_proto kUp kA r = none →
      GameData.from_proto kA kU kUp kB d
        = GameData.from_proto kA kU kUp kB { d with upgrades := l1 ++ l2 })
    ∧ (∀ (d : ResponseData) (r : ProtoBuffData) (l1 l2 : List ProtoBuffData),
      d.buffs = l1 ++ r :: l2 → BuffData.try_from_proto kB r = none →
      GameData.from_proto kA kU kUp kB d
        = GameData.from_proto kA kU kUp kB { d with buffs := l1 ++ l2 })
    ∧ (∀ (d : ResponseData) (r : ProtoEffectData) (l1 l2 : List ProtoEffectData),
      d.effects = l1 ++ r :: l2 → EffectData.try_from_proto r = none →
      GameData.from_proto kA kU kUp kB d
        = GameData.from_proto kA kU kUp kB { d with effects := l1 ++ l2 })
    ∧ (∀ (d : ResponseData) (r : ProtoAbilityData) (a : AbilityData),
      r ∈ d.abilities → AbilityData.try_from_proto kA r = some a →
      ((d.abilities.filterMap (AbilityData.try_from_proto kA)).map AbilityData.id).Nodup →
      lookupKV (GameData.from_proto kA kU kUp kB d).abilities a.id = some a)
    ∧ (∀ (d : ResponseData) (r : ProtoUnitTypeData) (a : UnitTypeData),
      r ∈ d.units → UnitTypeData.try_from_proto kU kA r = some a →
      ((d.units.filterMap (UnitTypeData.try_from_proto kU kA)).map UnitTypeData.id).Nodup →
      lookupKV (GameData.from_proto kA kU kUp kB d).units a.id = some a)
    ∧ (∀ (d : ResponseData) (r : ProtoUpgradeData) (a : UpgradeData),
      r ∈ d.upgrades → UpgradeData.try_from_proto kUp kA r = some a →
      ((d.upgrades.filterMap (UpgradeData.try_from_proto kUp kA)).map UpgradeData.id).Nodup →
      lookupKV (GameData.from_proto kA kU kUp kB d).upgrades a.id = some a)
    ∧ (∀ (d : ResponseData) (r : ProtoBuffData) (a : BuffData),
      r ∈ d.buffs → BuffData.try_from_proto kB r = some a →
      ((d.buffs.filterMap (BuffData.try_from_proto kB)).map BuffData.id).Nodup →
      lookupKV (GameData.from_proto kA kU kUp kB d).buffs a.id = some a)
    ∧ (∀ (d : ResponseData) (r : ProtoEffectData) (a : EffectData),
      r ∈ d.effects → EffectData.try_from_proto r = some a →
      ((d.effects.filterMap EffectData.try_from_proto).map EffectData.id).Nodup →
      lookupKV (GameData.from_proto kA kU kUp kB d).effects a.id = some a) := by
  refine ⟨?_, ?_, ?_, ?_, ?_, ?_, ?_, ?_, ?_, ?_⟩
  · intro d r l1 l2 hd htry
    simp only [GameData.from_proto, buildCatalog, hd]
    rw [buildCatalogAux_skip _ _ r htry l1]
  · intro d r l1 l2 hd htry
    simp only [GameData.from_proto, buildCatalog, hd]
    rw [buildCatalogAux_skip _ _ r htry l1]
  · intro d r l1 l2 hd htry
    simp only [GameData.from_proto, buildCatalog, hd]
    rw [buildCatalogAux_skip _ _ r htry l1]
  · intro d r l1 l2 hd htry
    simp only [GameData.from_proto, buildCatalog, hd]
    rw [buildCatalogAux_skip _ _ r htry l1]
  · intro d r l1 l2 hd htry
    simp only [GameData.from_proto, buildCatalog, hd]
    rw [buildCatalogAux_skip _ _ r htry l1]
  · intro d r a hr htry hnd
    exact buildCatalogAux_lookup_mem _ _ a d.abilities hnd ⟨r, hr, htry⟩ []
  · intro d r a hr htry hnd
    exact buildCatalogAux_lookup_mem _ _ a d.units hnd ⟨r, hr, htry⟩ []
  · intro d r a hr htry hnd
    exact buildCatalogAux_lookup_mem _ _ a d.upgrades hnd ⟨r, hr, htry⟩ []
  · intro d r a hr htry hnd
    exact buildCatalogAux_lookup_mem _ _ a d.buffs hnd ⟨r, hr, htry⟩ []
  · intro d r a hr htry hnd
    exact buildCatalogAux_lookup_mem _ _ a d.effects hnd ⟨r, hr, htry⟩ []

/-- An identifier enumeration knowing exactly code 1, for concrete
instances. -/
def oneKnown : Nat → Bool := fun c => c == 1

/-- A resolvable wire ability record with code 1. -/
def protoAbilityOne : ProtoAbilityData :=
  { ability_id := 1
    link_name := "x"
    link_index := 0
    button_name := none
    friendly_name := none
    hotkey := none
    remaps_to_ability_id := none
    available := true
    target := ProtoAbilityTarget.None
    allow_minimap := false
    allow_autocast := false
    is_building := false
    footprint_radius := none
    is_instant_placement := false
    cast_range := none }

/-- A second resolvable wire ability record with the same code 1 but a
different link name. -/
def protoAbilityOneB : ProtoAbilityData :=
  { protoAbilityOne with link_name := "y" }

/-- A wire ability record whose code 999 does not resolve. -/
def protoAbilityUnknown : ProtoAbilityData :=
  { protoAbilityOne with ability_id := 999 }

/-- The domain record `protoAbilityOne` decodes to. -/
def abilityOneDecoded : AbilityData :=
  { id := 1
    link_name := "x"
    link_index := 0
    button_name := none
    friendly_name := none
    hotkey := none
    remaps_to_ability_id := none
    available := true
    target := AbilityTarget.None
    allow_minimap := false
    allow_autocast := false
    is_building := false
    footprint_radius := none
    is_instant_placement := false
    cast_range := none }

/-- A response whose ability list holds two records with the same
resolvable code and one record with an unresolvable code. -/
def responseDupAndUnknown : ResponseData :=
  { abilities := [protoAbilityOne, protoAbilityOneB, protoAbilityUnknown]
    units := []
    upgrades := []
    buffs := []
    effects := [] }

/-- Counterexample to claim C1 as stated: in a response that contains an
unrecognized ability record, another record of the same response (code 1,
link name "x") decodes successfully yet is NOT present in the resulting
catalog unchanged — a later record with the same code overwrote it — so
"every other record of the same response is present in its catalog
unchanged" fails. -/
theorem claim_C1_counterexample :
    AbilityData.try_from_proto oneKnown protoAbilityUnknown = none
    ∧ protoAbilityOne ∈ responseDupAndUnknown.abilities
    ∧ AbilityData.try_from_proto oneKnown protoAbilityOne = some abilityOneDecoded
    ∧ ∀ e ∈ (GameData.from_proto oneKnown oneKnown oneKnown oneKnown
        responseDupAndUnknown).abilities, e.2 ≠ abilityOneDecoded := by
  refine ⟨by decide, by decide, by decide, ?_⟩
  decide

/-- A response with one resolvable and one unresolvable ability record. -/
def responseWithUnknown : ResponseData :=
  { abilities := [protoAbilityOne, protoAbilityUnknown]
    units := []
    upgrades := []
    buffs := []
    effects := [] }

/-- Witness for C1: on a concrete response holding a resolvable ability
record and an unrecognized one, the decode equals the decode of the
response without the unrecognized record, and the resolvable record is
present unchanged. -/
theorem claim_C1_witness :
    GameData.from_proto oneKnown oneKnown oneKnown oneKnown responseWithUnknown
      = GameData.from_proto oneKnown oneKnown oneKnown oneKnown
          { responseWithUnknown with abilities := [protoAbilityOne] }
    ∧ lookupKV (GameData.from_proto oneKnown oneKnown oneKnown oneKnown
        responseWithUnknown).abilities abilityOneDecoded.id = some abilityOneDecoded := by
  obtain ⟨h1, -, -, -, -, h6, -⟩ :=
    claim_C1_unknown_code_skipped oneKnown oneKnown oneKnown oneKnown
  constructor
  · simpa using h1 responseWithUnknown protoAbilityUnknown [protoAbilityOne] [] rfl (by decide)
  · exact h6 responseWithUnknown protoAbilityOne abilityOneDecoded (by decide) (by decide) (by decide)

/-- Claim C2 (amended): for every wire effect record whose code resolves,
decoding succeeds and `target` / `friendly_fire` are determined solely by
a fixed lookup on the identifier, independent of any wire field: five
identifiers (Null, PsiStormPersistent, ScannerSweep, NukePersistent,
RavagerCorrosiveBileCP) yield target Any and the rest Ground, and three
identifiers (PsiStormPersistent, NukePersistent, RavagerCorrosiveBileCP)
yield friendly-fire true and the rest false. -/
theorem claim_C2_effect_lookup (e : ProtoEffectData) (id : EffectId)
    (h : EffectId.from_u32 e.effect_id = some id) :
    ∃ d : EffectData, EffectData.try_from_proto e = some d
      ∧ d.id = id
      ∧ d.name = e.name
      ∧ d.friendly_name = e.friendly_name
      ∧ d.radius = e.radius
      ∧ d.target = (if id = EffectId.Null ∨ id = EffectId.PsiStormPersistent
          ∨ id = EffectId.ScannerSweep ∨ id = EffectId.NukePersistent
          ∨ id = EffectId.RavagerCorrosiveBileCP then TargetType.Any else TargetType.Ground)
      ∧ (d.friendly_fire = true ↔ (id = EffectId.PsiStormPersistent
          ∨ id = EffectId.NukePersistent ∨ id = EffectId.RavagerCorrosiveBileCP)) := by
  simp only [EffectData.try_from_proto, h, Option.map_some']
  refine ⟨_, rfl, rfl, rfl, rfl, rfl, ?_, ?_⟩
  · cases id <;> simp
  · cases id <;> simp

/-- A concrete wire effect record with the psionic-storm code. -/
def protoEffectStorm : ProtoEffectData :=
  { effect_id := 1, name := "storm", friendly_name := "PsiStorm", radius := 3/2 }

/-- Witness for C2: the psionic-storm record resolves and decodes with
target Any and friendly-fire true. -/
theorem claim_C2_effect_lookup_witness :
    EffectId.from_u32 protoEffectStorm.effect_id = some EffectId.PsiStormPersistent
    ∧ ∃ d : EffectData, EffectData.try_from_proto protoEffectStorm = some d
      ∧ d.id = EffectId.PsiStormPersistent
      ∧ d.name = protoEffectStorm.name
      ∧ d.friendly_name = protoEffectStorm.friendly_name
      ∧ d.radius = protoEffectStorm.radius
      ∧ d.target = (if EffectId.PsiStormPersistent = EffectId.Null
          ∨ EffectId.PsiStormPersistent = EffectId.PsiStormPersistent
          ∨ EffectId.PsiStormPersistent = EffectId.ScannerSweep
          ∨ EffectId.PsiStormPersistent = EffectId.NukePersistent
          ∨ EffectId.PsiStormPersistent = EffectId.RavagerCorrosiveBileCP
          then TargetType.Any else TargetType.Ground)
      ∧ (d.friendly_fire = true ↔ (EffectId.PsiStormPersistent = EffectId.PsiStormPersistent
          ∨ EffectId.PsiStormPersistent = EffectId.NukePersistent
          ∨ EffectId.PsiStormPersistent = EffectId.RavagerCorrosiveBileCP)) :=
  ⟨by decide, claim_C2_effect_lookup protoEffectStorm EffectId.PsiStormPersistent (by decide)⟩

/-- A concrete wire effect record with the scanner-sweep code. -/
def protoEffectScanner : ProtoEffectData :=
  { effect_id := 6, name := "scan", friendly_name := "ScannerSweep", radius := 13 }

/-- The record `protoEffectScanner` decodes to. -/
def effectScannerDecoded : EffectData :=
  { id := EffectId.ScannerSweep
    name := "scan"
    friendly_name := "ScannerSweep"
    radius := 13
    target := TargetType.Any
    friendly_fire := false }

/-- Counterexample to claim C2 as stated: the scanner-sweep identifier is
known and decodes with target Any but friendly-fire false, so it lies in
neither of the claim's two classes (Any with friendly-fire, or Ground
without); the source marks five identifiers Any and only three
friendly-fire, not four and four. -/
theorem claim_C2_counterexample :
    EffectId.from_u32 protoEffectScanner.effect_id = some EffectId.ScannerSweep
    ∧ EffectData.try_from_proto protoEffectScanner = some effectScannerDecoded
    ∧ effectScannerDecoded.target = TargetType.Any
    ∧ effectScannerDecoded.friendly_fire = false := by
  refine ⟨by decide, by decide, rfl, rfl⟩

/-- A concrete unit-type record with the costs of the claim's example. -/
def exampleUnitTypeData : UnitTypeData :=
  { id := 1
    name := "m"
    available := true
    cargo_size := 1
    mineral_cost := 50
    vespene_cost := 0
    food_required := 1
    food_provided := 0
    ability := none
    race := Race.Terran
    build_time := 12
    has_vespene := false
    has_minerals := false
    sight_range := 9
    tech_alias := []
    unit_alias := none
    tech_requirement := none
    require_attached := false
    attributes := []
    movement_speed := 3
    armor := 0
    weapons := [] }

/-- Claim C6: `UnitTypeData::cost` returns exactly the stored mineral,
vespene, supply and build-time fields (in particular 50/0/1.0/12.0 for the
example record), and `UpgradeData::cost` always returns supply 0 with
minerals, vespene and time taken from the record. -/
theorem claim_C6_cost_views :
    (∀ u : UnitTypeData, u.cost
      = { minerals := u.mineral_cost, vespene := u.vespene_cost,
          supply := u.food_required, time := u.build_time })
    ∧ exampleUnitTypeData.cost = { minerals := 50, vespene := 0, supply := 1, time := 12 }
    ∧ (∀ u : UpgradeData, u.cost
      = { minerals := u.mineral_cost, vespene := u.vespene_cost,
          supply := 0, time := u.research_time })
    ∧ (∀ u : UpgradeData, u.cost.supply = 0) :=
  ⟨fun _ => rfl, rfl, fun _ => rfl, fun _ => rfl⟩

/-- `ScoreType` wire enum (`score::ScoreType`). -/
inductive ProtoScoreType where
  | Curriculum
  | Melee
deriving DecidableEq, Repr

/-- `ScoreType` (`score.rs`). -/
inductive ScoreType where
  | Curriculum
  | Melee
deriving DecidableEq, Repr

/-- `ScoreType::from_proto`: the total variant-for-variant map. -/
def ScoreType.from_proto : ProtoScoreType → ScoreType
  | ProtoScoreType.Curriculum => ScoreType.Curriculum
  | ProtoScoreType.Melee => ScoreType.Melee

/-- Wire `CategoryScoreDetails` sub-message. -/
structure ProtoCategoryScoreDetails where
  none : F32
  army : F32
  economy : F32
  technology : F32
  upgrade : F32
deriving DecidableEq, Repr

/-- The engine default `CategoryScoreDetails` (all zero), substituted when
the sub-message is absent. -/
def ProtoCategoryScoreDetails.defaultValue : ProtoCategoryScoreDetails :=
  ⟨0, 0, 0, 0, 0⟩

/-- `Category` (`score.rs`). -/
structure Category where
  none : F32
  army : F32
  economy : F32
  technology : F32
  upgrade : F32
deriving DecidableEq, Repr

/-- `Category::from_proto` (total). -/
def Category.from_proto (c : ProtoCategoryScoreDetails) : Category :=
  { none := c.none
    army := c.army
    economy := c.economy
    technology := c.technology
    upgrade := c.upgrade }

/-- Wire `VitalScoreDetails` sub-message. -/
structure ProtoVitalScoreDetails where
  life : F32
  shields : F32
  energy : F32
deriving DecidableEq, Repr

/-- The engine default `VitalScoreDetails` (all zero), substituted when
the sub-message is absent. -/
def ProtoVitalScoreDetails.defaultValue : ProtoVitalScoreDetails :=
  ⟨0, 0, 0⟩

/-- `Vital` (`score.rs`). -/
structure Vital where
  life : F32
  shields : F32
  energy : F32
deriving DecidableEq, Repr

/-- `Vital::from_proto` (total). -/
def Vital.from_proto (v : ProtoVitalScoreDetails) : Vital :=
  { life := v.life, shields := v.shields, energy := v.energy }

/-- Wire `ScoreDetails` sub-message: scalar fields are stored as the
defaulting-accessor results; category/vital sub-messages as options. -/
structure ProtoScoreDetails where
  idle_production_time : F32
  idle_worker_time : F32
  total_value_units : F32
  total_value_structures : F32
  killed_value_units : F32
  killed_value_structures : F32
  collected_minerals : F32
  collected_vespene : F32
  collection_rate_minerals : F32
  collection_rate_vespene : F32
  spent_minerals : F32
  spent_vespene : F32
  food_used : Option ProtoCategoryScoreDetails
  killed_minerals : Option ProtoCategoryScoreDetails
  killed_vespene : Option ProtoCategoryScoreDetails
  lost_minerals : Option ProtoCategoryScoreDetails
  lost_vespene : Option ProtoCategoryScoreDetails
  friendly_fire_minerals : Option ProtoCategoryScoreDetails
  friendly_fire_vespene : Option ProtoCategoryScoreDetails
  used_minerals : Option ProtoCategoryScoreDetails
  used_vespene : Option ProtoCategoryScoreDetails
  total_used_minerals : Option ProtoCategoryScoreDetails
  total_used_vespene : Option ProtoCategoryScoreDetails
  total_damage_dealt : Option ProtoVitalScoreDetails
  total_damage_taken : Option ProtoVitalScoreDetails
  total_healed : Option ProtoVitalScoreDetails
  current_apm : F32
  current_effective_apm : F32
deriving DecidableEq, Repr

/-- Wire `Score` message: the `score_details` sub-message is optional on
the wire. -/
structure ProtoScore where
  score_type : ProtoScoreType
  score : Int
  score_details : Option ProtoScoreDetails
deriving DecidableEq, Repr

/-- `Score` (`score.rs`). -/
structure Score where
  score_type : ScoreType
  total_score : Int
  idle_production_time : F32
  idle_worker_time : F32
  total_value_units : F32
  total_value_structures : F32
  killed_value_units : F32
  killed_value_structures : F32
  collected_minerals : F32
  collected_vespene : F32
  collection_rate_minerals : F32
  collection_rate_vespene : F32
  spent_minerals : F32
  spent_vespene : F32
  food_used : Category
  killed_minerals : Category
  killed_vespene : Category
  lost_minerals : Category
  lost_vespene : Category
  friendly_fire_minerals : Category
  friendly_fire_vespene : Category
  used_minerals : Category
  used_vespene : Category
  total_used_minerals : Category
  total_used_vespene : Category
  total_damage_dealt : Vital
  total_damage_taken : Vital
  total_healed : Vital
  current_apm : F32
  current_effective_apm : F32
deriving DecidableEq, Repr

/-- `Score::from_proto`: the source calls
`score.score_details.as_ref().expect("Score details not found")`, a panic
when the sub-message is absent, modelled as an `Except` error; absent
category/vital sub-messages inside present details substitute the engine
default. -/
def Score.from_proto (s : ProtoScore) : Except String Score :=
  match s.score_details with
  | Option.none => Except.error "Score details not found"
  | Option.some details =>
      Except.ok
        { score_type := ScoreType.from_proto s.score_type
          total_score := s.score
          idle_production_time := details.idle_production_time
          idle_worker_time := details.idle_worker_time
          total_value_units := details.total_value_units
          total_value_structures := details.total_value_structures
          killed_value_units := details.killed_value_units
          killed_value_structures := details.killed_value_structures
          collected_minerals := details.collected_minerals
          collected_vespene := details.collected_vespene
          collection_rate_minerals := details.collection_rate_minerals
          collection_rate_vespene := details.collection_rate_vespene
          spent_minerals := details.spent_minerals
          spent_vespene := details.spent_vespene
          food_used := Category.from_proto
            (details.food_used.getD ProtoCategoryScoreDetails.defaultValue)
          killed_minerals := Category.from_proto
            (details.killed_minerals.getD ProtoCategoryScoreDetails.defaultValue)
          killed_vespene := Category.from_proto
            (details.killed_vespene.getD ProtoCategoryScoreDetails.defaultValue)
          lost_minerals := Category.from_proto
            (details.lost_minerals.getD ProtoCategoryScoreDetails.defaultValue)
          lost_vespene := Category.from_proto
            (details.lost_vespene.getD ProtoCategoryScoreDetails.defaultValue)
          friendly_fire_minerals := Category.from_proto
            (details.friendly_fire_minerals.getD ProtoCategoryScoreDetails.defaultValue)
          friendly_fire_vespene := Category.from_proto
            (details.friendly_fire_vespene.getD ProtoCategoryScoreDetails.defaultValue)
          used_minerals := Category.from_proto
            (details.used_minerals.getD ProtoCategoryScoreDetails.defaultValue)
          used_vespene := Category.from_proto
            (details.used_vespene.getD ProtoCategoryScoreDetails.defaultValue)
          total_used_minerals := Category.from_proto
            (details.total_used_minerals.getD ProtoCategoryScoreDetails.defaultValue)
          total_used_vespene := Category.from_proto
            (details.total_used_vespene.getD ProtoCategoryScoreDetails.defaultValue)
          total_damage_dealt := Vital.from_proto
            (details.total_damage_dealt.getD ProtoVitalScoreDetails.defaultValue)
          total_damage_taken := Vital.from_proto
            (details.total_damage_taken.getD ProtoVitalScoreDetails.defaultValue)
          total_healed := Vital.from_proto
            (details.total_healed.getD ProtoVitalScoreDetails.defaultValue)
          current_apm := details.current_apm
          current_effective_apm := details.current_effective_apm }

/-- Claim C4: when the `score_details` sub-message is absent, decoding a
`Score` is fatal for that decode call — the caller gets the unrecoverable
"Score details not found" fault and never a best-effort partial `Score`
filled with defaults. -/
theorem claim_C4_missing_details_fatal (s : ProtoScore) (h : s.score_details = Option.none) :
    Score.from_proto s = Except.error "Score details not found"
    ∧ ∀ sc : Score, Score.from_proto s ≠ Except.ok sc := by
  have he : Score.from_proto s = Except.error "Score details not found" := by
    rw [Score.from_proto, h]
  exact ⟨he, fun sc hok => by rw [he] at hok; exact Except.noConfusion hok⟩

/-- A concrete wire score with no details sub-message. -/
def protoScoreNoDetails : ProtoScore :=
  { score_type := ProtoScoreType.Melee, score := 1050, score_details := Option.none }

/-- Witness for C4: the concrete detail-less score decodes to the fatal
error and to no `Score` value. -/
theorem claim_C4_missing_details_fatal_witness :
    Score.from_proto protoScoreNoDetails = Except.error "Score details not found"
    ∧ ∀ sc : Score, Score.from_proto protoScoreNoDetails ≠ Except.ok sc :=
  claim_C4_missing_details_fatal protoScoreNoDetails rfl
